import Mathlib

/-!
Verification of the PurePath streak/check-in engine.

A shallow embedding of the Firestore-backed profile operations
(`register`, `getUserProfile`, `updateStreak`, `logRelapse`) from
`src/pages/Profile.tsx`.  JavaScript `Date` local calendar components
(`getFullYear`, `getMonth` 0-based, `getDate` 1-based) are modelled as a
triple of integers; the document store is modelled as a map from user id
to an optional document, together with an append-only relapse collection,
a log of the write calls issued, and an injected persistence-failure flag
standing for a rejected write or a network failure.
-/

/-- A local calendar date as JavaScript exposes it: `year` is
`getFullYear()`, `month` is `getMonth()` (0–11), `day` is `getDate()`
(1–31). -/
structure SimpleDate where
  year : Int
  month : Int
  day : Int
deriving DecidableEq, Repr

/-- `new Date(0)`: the epoch, 1970-01-01 (month 0-based). -/
def epochDate : SimpleDate := ⟨1970, 0, 1⟩

/-- The year/month part of the civil day-number calculation (Hinnant's
`days_from_civil`), so that the day number is this code plus the
day-of-month.  Used only to state what "n calendar days apart" means. -/
def ymCode (year month : Int) : Int :=
  let m := month + 1
  let y := if m ≤ 2 then year - 1 else year
  let era := (if 0 ≤ y then y else y - 399) / 400
  let yoe := y - era * 400
  let mp := (m + 9) % 12
  let doy0 := (153 * mp + 2) / 5
  era * 146097 + yoe * 365 + yoe / 4 - yoe / 100 + doy0 - 719468 - 1

/-- Day number of a calendar date (days since 1970-01-01); two dates are
`n` calendar days apart exactly when their day numbers differ by `n`. -/
def civilFromDate (d : SimpleDate) : Int :=
  ymCode d.year d.month + d.day

/-- Geographic point stored with a profile (coordinates carried opaquely;
no arithmetic is ever performed on them here). -/
structure GeoPoint where
  lat : Int
  lng : Int
deriving DecidableEq, Repr

/-- A `users/{id}` Firestore document.  Every field of the TypeScript
`UserProfile` interface apart from `id` is optional, hence `Option`. -/
structure UserDoc where
  username : Option String := none
  email : Option String := none
  location : Option GeoPoint := none
  role : Option String := none
  joinedAt : Option SimpleDate := none
  streakDays : Option Nat := none
  lastCheckIn : Option SimpleDate := none
deriving DecidableEq, Repr

/-- Append-only `relapses` collection entry: `{userId, timestamp, notes}`. -/
structure RelapseRecord where
  userId : String
  timestamp : SimpleDate
  notes : String
deriving DecidableEq, Repr

/-- A single write call issued to the document store: a full `setDoc` of a
profile, a partial `updateDoc` naming just the fields it writes, or an
append to the `relapses` collection. -/
inductive WriteOp where
  | profileSet (userId : String) (d : UserDoc)
  | profileUpdate (userId : String) (streakDays : Option Nat) (lastCheckIn : Option SimpleDate)
  | relapseAdd (r : RelapseRecord)
deriving DecidableEq, Repr

/-- The document store: the `users` collection, the `relapses` collection,
the log of write calls issued so far, and `writeFails`, an injected
persistence failure (`some cause` makes the next write call reject with
that cause, modelling a rejected write or network failure). -/
structure Store where
  users : String → Option UserDoc
  relapses : List RelapseRecord
  log : List WriteOp
  writeFails : Option String

/-- `isToday` from `updateStreak`:
`lastCheckIn.getDate() === now.getDate() && lastCheckIn.getMonth() === now.getMonth() && lastCheckIn.getFullYear() === now.getFullYear()`. -/
def isTodayJS (lastCheckIn now : SimpleDate) : Bool :=
  lastCheckIn.day == now.day && lastCheckIn.month == now.month &&
    lastCheckIn.year == now.year

/-- `isYesterday` from `updateStreak`, the naive comparison:
`lastCheckIn.getDate() === now.getDate() - 1 && lastCheckIn.getMonth() === now.getMonth() && lastCheckIn.getFullYear() === now.getFullYear()`. -/
def isYesterdayJS (lastCheckIn now : SimpleDate) : Bool :=
  lastCheckIn.day == now.day - 1 && lastCheckIn.month == now.month &&
    lastCheckIn.year == now.year

/-- Result object of `updateStreak`: `{success, streakDays?, message}`.
`streakDays` is optional because the failure returns carry no such field,
and the already-checked-in return passes the raw (possibly absent)
`userData.streakDays` through. -/
structure StreakResult where
  success : Bool
  streakDays : Option Nat := none
  message : String
deriving DecidableEq, Repr

/-- `updateStreak(userId)` against store `st` at local time `now`.
Mirrors the source: read the user document; absent document returns
`"User not found"`; same calendar date returns unchanged with no write;
otherwise the naive yesterday test decides increment vs reset to 1, and a
single `updateDoc` writes `{lastCheckIn: now, streakDays}` (a rejected
write returns the failure cause and leaves the store untouched). -/
def updateStreak (st : Store) (userId : String) (now : SimpleDate) :
    StreakResult × Store :=
  match st.users userId with
  | none => ({ success := false, message := "User not found" }, st)
  | some userData =>
    let lastCheckIn := userData.lastCheckIn.getD epochDate
    let isYesterday := isYesterdayJS lastCheckIn now
    let isToday := isTodayJS lastCheckIn now
    if isToday then
      ({ success := true, streakDays := userData.streakDays,
         message := "Already checked in today" }, st)
    else
      let streakDays :=
        if isYesterday then userData.streakDays.getD 0 + 1
        else if !isToday then 1
        else userData.streakDays.getD 0
      match st.writeFails with
      | some cause => ({ success := false, message := cause }, st)
      | none =>
        let newDoc : UserDoc :=
          { userData with lastCheckIn := some now, streakDays := some streakDays }
        let st' : Store :=
          { st with
            users := fun i => if i = userId then some newDoc else st.users i,
            log := st.log ++ [WriteOp.profileUpdate userId (some streakDays) (some now)] }
        ({ success := true, streakDays := some streakDays,
           message := "Streak updated successfully" }, st')

/-- Result object of `logRelapse` / other plain result returns. -/
structure OpResult where
  success : Bool
  message : String
deriving DecidableEq, Repr

/-- `logRelapse(userId, notes?)` against store `st` at local time `now`.
Mirrors the source: append `{userId, timestamp: now, notes: notes || ''}`
to `relapses`, then a single `updateDoc` resets the profile with
`{streakDays: 0, lastCheckIn: now}`; an `updateDoc` on an absent document
rejects, and an injected write failure rejects the whole call before any
write. -/
def logRelapse (st : Store) (userId : String) (now : SimpleDate)
    (notes : Option String) : OpResult × Store :=
  match st.writeFails with
  | some cause => ({ success := false, message := cause }, st)
  | none =>
    let rec0 : RelapseRecord :=
      { userId := userId, timestamp := now, notes := notes.getD "" }
    let st1 : Store :=
      { st with relapses := st.relapses ++ [rec0],
                log := st.log ++ [WriteOp.relapseAdd rec0] }
    match st1.users userId with
    | none => ({ success := false, message := "No document to update" }, st1)
    | some userData =>
      let newDoc : UserDoc :=
        { userData with streakDays := some 0, lastCheckIn := some now }
      let st2 : Store :=
        { st1 with
          users := fun i => if i = userId then some newDoc else st1.users i,
          log := st1.log ++ [WriteOp.profileUpdate userId (some 0) (some now)] }
      ({ success := true,
         message := "Progress reset. Remember: every moment is a new opportunity." }, st2)

/-- The profile document that `register` writes with `setDoc`:
`{username, email, location, role: 'member', joinedAt: now, streakDays: 0, lastCheckIn: now}`. -/
def registrationDoc (username email : String) (location : Option GeoPoint)
    (now : SimpleDate) : UserDoc :=
  { username := some username, email := some email, location := location,
    role := some "member", joinedAt := some now,
    streakDays := some 0, lastCheckIn := some now }

/-- `register(email, password, username, location?)` against store `st`,
restricted to its Firestore effect: a `setDoc` of the new profile document
at the fresh auth uid `userId`, at registration time `now`.  A rejected
write leaves the store untouched. -/
def register (st : Store) (userId : String) (email username : String)
    (location : Option GeoPoint) (now : SimpleDate) : Store :=
  match st.writeFails with
  | some _ => st
  | none =>
    let d := registrationDoc username email location now
    { st with
      users := fun i => if i = userId then some d else st.users i,
      log := st.log ++ [WriteOp.profileSet userId d] }

/-- The `UserProfile` value returned by `getUserProfile`: `id` plus the
optional document fields. -/
structure UserProfile where
  id : String
  username : Option String := none
  email : Option String := none
  location : Option GeoPoint := none
  role : Option String := none
  joinedAt : Option SimpleDate := none
  streakDays : Option Nat := none
  lastCheckIn : Option SimpleDate := none
deriving DecidableEq, Repr

/-- `{ id: docSnap.id, ...docSnap.data() }`: a document spread onto a
`UserProfile` with the given id. -/
def profileOfDoc (id : String) (d : UserDoc) : UserProfile :=
  { id := id, username := d.username, email := d.email,
    location := d.location, role := d.role, joinedAt := d.joinedAt,
    streakDays := d.streakDays, lastCheckIn := d.lastCheckIn }

/-- `getUserProfile(userId)`: returns the spread document when it exists
and the bare `{ id: userId }` object when it does not (the source also
returns `{ id: userId }` when the database handle is missing or the read
throws). -/
def getUserProfile (st : Store) (userId : String) : UserProfile :=
  match st.users userId with
  | some d => profileOfDoc userId d
  | none => { id := userId }

/-! ### Helper lemmas -/

theorem civil_sub_of_same_ym (l n : SimpleDate) (hy : l.year = n.year)
    (hm : l.month = n.month) :
    civilFromDate n - civilFromDate l = n.day - l.day := by
  cases l with
  | mk ly lm ld =>
    cases n with
    | mk ny nm nd =>
      simp only at hy hm
      subst hy hm
      simp only [civilFromDate]
      omega

theorem isTodayJS_true_iff (l n : SimpleDate) :
    isTodayJS l n = true ↔ l.day = n.day ∧ l.month = n.month ∧ l.year = n.year := by
  simp [isTodayJS, and_assoc]

theorem isYesterdayJS_true_iff (l n : SimpleDate) :
    isYesterdayJS l n = true ↔
      l.day = n.day - 1 ∧ l.month = n.month ∧ l.year = n.year := by
  simp [isYesterdayJS, and_assoc]

theorem isTodayJS_false_of_civil_ne (l n : SimpleDate)
    (h : civilFromDate n - civilFromDate l ≠ 0) : isTodayJS l n = false := by
  rw [Bool.eq_false_iff]
  intro htrue
  rcases (isTodayJS_true_iff l n).mp htrue with ⟨hd, hm, hy⟩
  rw [civil_sub_of_same_ym l n hy hm] at h
  omega

theorem isYesterdayJS_false_of_civil_ne (l n : SimpleDate)
    (h : civilFromDate n - civilFromDate l ≠ 1) : isYesterdayJS l n = false := by
  rw [Bool.eq_false_iff]
  intro htrue
  rcases (isYesterdayJS_true_iff l n).mp htrue with ⟨hd, hm, hy⟩
  rw [civil_sub_of_same_ym l n hy hm] at h
  omega

theorem isYesterdayJS_true_of_civil (l n : SimpleDate) (hy : l.year = n.year)
    (hm : l.month = n.month) (h : civilFromDate n - civilFromDate l = 1) :
    isYesterdayJS l n = true := by
  rw [civil_sub_of_same_ym l n hy hm] at h
  exact (isYesterdayJS_true_iff l n).mpr ⟨by omega, hm, hy⟩

/-- Evaluation of `updateStreak` when the user document exists and the last
check-in is on today's calendar date: unchanged result, no write. -/
theorem updateStreak_today (st : Store) (u : String) (d : UserDoc)
    (now : SimpleDate) (hu : st.users u = some d)
    (hT : isTodayJS (d.lastCheckIn.getD epochDate) now = true) :
    updateStreak st u now =
      ({ success := true, streakDays := d.streakDays,
         message := "Already checked in today" }, st) := by
  simp only [updateStreak, hu, hT, if_true]

/-- Evaluation of `updateStreak` when the user document exists, the last
check-in is not on today's calendar date, and the write succeeds. -/
theorem updateStreak_write (st : Store) (u : String) (d : UserDoc)
    (now : SimpleDate) (hu : st.users u = some d)
    (hT : isTodayJS (d.lastCheckIn.getD epochDate) now = false)
    (hw : st.writeFails = none) :
    updateStreak st u now =
      (let s := if isYesterdayJS (d.lastCheckIn.getD epochDate) now then
          d.streakDays.getD 0 + 1 else 1
       ({ success := true, streakDays := some s,
          message := "Streak updated successfully" },
        { st with
          users := fun i => if i = u then
              some { d with lastCheckIn := some now, streakDays := some s }
            else st.users i,
          log := st.log ++ [WriteOp.profileUpdate u (some s) (some now)] })) := by
  simp only [updateStreak, hu, hT, hw, Bool.not_false, if_false, if_true, Bool.false_eq_true]

/-! ### Concrete stores used by the witnesses -/

/-- A stored profile whose last check-in is 2024-03-10 (month 0-based)
with a 5-day streak. -/
def demoDoc : UserDoc :=
  { username := some "amy", email := some "amy@example.com",
    role := some "member", joinedAt := some ⟨2024, 0, 1⟩,
    streakDays := some 5, lastCheckIn := some ⟨2024, 2, 10⟩ }

/-- A store holding `demoDoc` under id "u1", with no failure injected. -/
def demoStore : Store :=
  { users := fun i => if i = "u1" then some demoDoc else none,
    relapses := [], log := [], writeFails := none }

/-- A stored profile whose last check-in is 2024-03-01, nine days stale. -/
def staleDoc : UserDoc :=
  { username := some "bo", streakDays := some 5,
    lastCheckIn := some ⟨2024, 2, 1⟩ }

/-- A store holding `staleDoc` under id "u2". -/
def staleStore : Store :=
  { users := fun i => if i = "u2" then some staleDoc else none,
    relapses := [], log := [], writeFails := none }

/-- A stored profile whose last check-in is 2024-01-31, the day before a
month boundary. -/
def janDoc : UserDoc :=
  { streakDays := some 7, lastCheckIn := some ⟨2024, 0, 31⟩ }

/-- A store holding `janDoc` under id "u3". -/
def janStore : Store :=
  { users := fun i => if i = "u3" then some janDoc else none,
    relapses := [], log := [], writeFails := none }

/-! ### Claims -/

/-- Claim C1: for every profile whose last check-in falls on the same
calendar date (local year, month, day) as now, `updateStreak` returns
success with the stored `streakDays` unchanged and the message "Already
checked in today", and performs no write: the store comes back untouched
(the source's `changed=false`). -/
theorem checkin_same_day_idempotent (st : Store) (u : String) (d : UserDoc)
    (lc now : SimpleDate) (hu : st.users u = some d)
    (hlc : d.lastCheckIn = some lc) (hy : lc.year = now.year)
    (hm : lc.month = now.month) (hd : lc.day = now.day) :
    updateStreak st u now =
      ({ success := true, streakDays := d.streakDays,
         message := "Already checked in today" }, st) := by
  apply updateStreak_today st u d now hu
  rw [hlc]
  exact (isTodayJS_true_iff lc now).mpr ⟨hd, hm, hy⟩

/-- Witness for C1 at `lastCheckIn = now = 2024-03-10`, `streakDays = 5`. -/
theorem checkin_same_day_idempotent_witness :
    updateStreak demoStore "u1" ⟨2024, 2, 10⟩ =
      ({ success := true, streakDays := some 5,
         message := "Already checked in today" }, demoStore) :=
  checkin_same_day_idempotent demoStore "u1" demoDoc ⟨2024, 2, 10⟩ ⟨2024, 2, 10⟩
    (by decide) rfl rfl rfl rfl

/-- Claim C2: for every profile whose last check-in is exactly one
calendar day before now within the same month and year, a successful
`updateStreak` increments the streak: `streakDays' = streakDays + 1`. -/
theorem checkin_yesterday_increments (st : Store) (u : String) (d : UserDoc)
    (lc now : SimpleDate) (n : Nat) (hu : st.users u = some d)
    (hlc : d.lastCheckIn = some lc) (hn : d.streakDays = some n)
    (hy : lc.year = now.year) (hm : lc.month = now.month)
    (hciv : civilFromDate now - civilFromDate lc = 1)
    (hw : st.writeFails = none) :
    (updateStreak st u now).1 =
      { success := true, streakDays := some (n + 1),
        message := "Streak updated successfully" } ∧
    (updateStreak st u now).2.users u =
      some { d with streakDays := some (n + 1), lastCheckIn := some now } := by
  have hT : isTodayJS (d.lastCheckIn.getD epochDate) now = false := by
    rw [hlc]
    exact isTodayJS_false_of_civil_ne lc now (by omega)
  have hY : isYesterdayJS (d.lastCheckIn.getD epochDate) now = true := by
    rw [hlc]
    exact isYesterdayJS_true_of_civil lc now hy hm hciv
  rw [updateStreak_write st u d now hu hT hw]
  constructor
  · simp [hY, hn]
  · simp [hY, hn]

/-- Witness for C2: `lastCheckIn = 2024-03-10`, `streakDays = 5`,
`now = 2024-03-11` yields `streakDays = 6`. -/
theorem checkin_yesterday_increments_witness :
    (updateStreak demoStore "u1" ⟨2024, 2, 11⟩).1 =
      { success := true, streakDays := some 6,
        message := "Streak updated successfully" } ∧
    (updateStreak demoStore "u1" ⟨2024, 2, 11⟩).2.users "u1" =
      some { demoDoc with streakDays := some 6,
                          lastCheckIn := some ⟨2024, 2, 11⟩ } :=
  checkin_yesterday_increments demoStore "u1" demoDoc ⟨2024, 2, 10⟩
    ⟨2024, 2, 11⟩ 5 (by decide) rfl rfl rfl rfl (by decide) rfl

/-- Claim C3: for every profile whose effective last check-in (the stored
date, or the epoch when absent) is two or more calendar days before now,
a successful `updateStreak` resets the streak to 1. -/
theorem checkin_gap_resets (st : Store) (u : String) (d : UserDoc)
    (now : SimpleDate) (hu : st.users u = some d)
    (hciv : 2 ≤ civilFromDate now - civilFromDate (d.lastCheckIn.getD epochDate))
    (hw : st.writeFails = none) :
    (updateStreak st u now).1 =
      { success := true, streakDays := some 1,
        message := "Streak updated successfully" } ∧
    (updateStreak st u now).2.users u =
      some { d with streakDays := some 1, lastCheckIn := some now } := by
  have hT := isTodayJS_false_of_civil_ne (d.lastCheckIn.getD epochDate) now (by omega)
  have hY := isYesterdayJS_false_of_civil_ne (d.lastCheckIn.getD epochDate) now (by omega)
  rw [updateStreak_write st u d now hu hT hw]
  constructor
  · simp [hY]
  · simp [hY]

/-- Witness for C3: `lastCheckIn = 2024-03-01`, `now = 2024-03-10` yields
`streakDays = 1`. -/
theorem checkin_gap_resets_witness :
    (updateStreak staleStore "u2" ⟨2024, 2, 10⟩).1 =
      { success := true, streakDays := some 1,
        message := "Streak updated successfully" } ∧
    (updateStreak staleStore "u2" ⟨2024, 2, 10⟩).2.users "u2" =
      some { staleDoc with streakDays := some 1,
                           lastCheckIn := some ⟨2024, 2, 10⟩ } :=
  checkin_gap_resets staleStore "u2" staleDoc ⟨2024, 2, 10⟩
    (by decide) (by decide) rfl

/-- Claim C4: the naive `day = now.day - 1` yesterday test rejects pairs
one real calendar day apart in different months, so such a successful
check-in resets the streak to 1 instead of incrementing it. -/
theorem month_boundary_not_consecutive (st : Store) (u : String)
    (d : UserDoc) (lc now : SimpleDate) (hu : st.users u = some d)
    (hlc : d.lastCheckIn = some lc) (hm : lc.month ≠ now.month)
    (_hciv : civilFromDate now - civilFromDate lc = 1)
    (hw : st.writeFails = none) :
    isYesterdayJS lc now = false ∧
    (updateStreak st u now).1 =
      { success := true, streakDays := some 1,
        message := "Streak updated successfully" } := by
  have hY : isYesterdayJS lc now = false := by
    rw [Bool.eq_false_iff]
    intro htrue
    rcases (isYesterdayJS_true_iff lc now).mp htrue with ⟨-, hm2, -⟩
    exact hm hm2
  have hT : isTodayJS lc now = false := by
    rw [Bool.eq_false_iff]
    intro htrue
    rcases (isTodayJS_true_iff lc now).mp htrue with ⟨-, hm2, -⟩
    exact hm hm2
  refine ⟨hY, ?_⟩
  have hT' : isTodayJS (d.lastCheckIn.getD epochDate) now = false := by
    rw [hlc]; exact hT
  have hY' : isYesterdayJS (d.lastCheckIn.getD epochDate) now = false := by
    rw [hlc]; exact hY
  rw [updateStreak_write st u d now hu hT' hw]
  simp [hY']

/-- Witness for C4: `lastCheckIn = 2024-01-31`, `now = 2024-02-01` (one
real calendar day apart) yields `streakDays = 1`, not 8. -/
theorem month_boundary_not_consecutive_witness :
    isYesterdayJS ⟨2024, 0, 31⟩ ⟨2024, 1, 1⟩ = false ∧
    (updateStreak janStore "u3" ⟨2024, 1, 1⟩).1 =
      { success := true, streakDays := some 1,
        message := "Streak updated successfully" } :=
  month_boundary_not_consecutive janStore "u3" janDoc ⟨2024, 0, 31⟩
    ⟨2024, 1, 1⟩ (by decide) rfl (by decide) (by decide) rfl

/-- Claim C5: for every user with a stored profile and every optional
notes argument, a successful `logRelapse` resets `streakDays` to 0 and
`lastCheckIn` to now on the profile, and appends a `RelapseRecord` with
the user id, the timestamp, and the supplied notes (empty string when
omitted). -/
theorem relapse_resets_streak (st : Store) (u : String) (d : UserDoc)
    (now : SimpleDate) (notes : Option String)
    (hu : st.users u = some d) (hw : st.writeFails = none) :
    (logRelapse st u now notes).1.success = true ∧
    (logRelapse st u now notes).2.users u =
      some { d with streakDays := some 0, lastCheckIn := some now } ∧
    (logRelapse st u now notes).2.relapses =
      st.relapses ++ [{ userId := u, timestamp := now,
                        notes := notes.getD "" }] := by
  simp [logRelapse, hw, hu]

/-- Witness for C5: a relapse with omitted notes on the demo store. -/
theorem relapse_resets_streak_witness :
    (logRelapse demoStore "u1" ⟨2024, 2, 12⟩ none).1.success = true ∧
    (logRelapse demoStore "u1" ⟨2024, 2, 12⟩ none).2.users "u1" =
      some { demoDoc with streakDays := some 0,
                          lastCheckIn := some ⟨2024, 2, 12⟩ } ∧
    (logRelapse demoStore "u1" ⟨2024, 2, 12⟩ none).2.relapses =
      demoStore.relapses ++ [{ userId := "u1", timestamp := ⟨2024, 2, 12⟩,
                               notes := "" }] :=
  relapse_resets_streak demoStore "u1" demoDoc ⟨2024, 2, 12⟩ none
    (by decide) rfl

/-- A store identical to `demoStore` but whose next write is rejected
with cause "Network unavailable". -/
def failStore : Store :=
  { users := fun i => if i = "u1" then some demoDoc else none,
    relapses := [], log := [], writeFails := some "Network unavailable" }

/-- Claim C6: when the write is rejected during `updateStreak` (the last
check-in not being today, so a write is attempted), the call returns
`success = false` with the failure cause as message and leaves the store
— profile state included — unchanged; no retry happens within the call. -/
theorem persistence_failure_surfaces (st : Store) (u : String) (d : UserDoc)
    (now : SimpleDate) (cause : String) (hu : st.users u = some d)
    (hT : isTodayJS (d.lastCheckIn.getD epochDate) now = false)
    (hw : st.writeFails = some cause) :
    updateStreak st u now =
      ({ success := false, streakDays := none, message := cause }, st) := by
  simp [updateStreak, hu, hT, hw]

/-- Witness for C6: rejected write on `failStore` surfaces the cause. -/
theorem persistence_failure_surfaces_witness :
    updateStreak failStore "u1" ⟨2024, 2, 11⟩ =
      ({ success := false, streakDays := none,
         message := "Network unavailable" }, failStore) :=
  persistence_failure_surfaces failStore "u1" demoDoc ⟨2024, 2, 11⟩
    "Network unavailable" (by decide) (by decide) rfl

/-- Claim C7: when no profile document exists for the user id,
`updateStreak` returns `success = false` with message "User not found"
and performs no write: the store comes back untouched. -/
theorem missing_user_not_found (st : Store) (u : String) (now : SimpleDate)
    (hu : st.users u = none) :
    updateStreak st u now =
      ({ success := false, streakDays := none,
         message := "User not found" }, st) := by
  simp [updateStreak, hu]

/-- Witness for C7: an id with no document on the demo store. -/
theorem missing_user_not_found_witness :
    updateStreak demoStore "ghost" ⟨2024, 2, 11⟩ =
      ({ success := false, streakDays := none,
         message := "User not found" }, demoStore) :=
  missing_user_not_found demoStore "ghost" ⟨2024, 2, 11⟩ (by decide)

/-- A write call that keeps `streakDays` and `lastCheckIn` in lockstep:
every profile write carrying either field carries both, with
`lastCheckIn = now`; relapse-collection appends touch neither field. -/
def writesStreakAndCheckInTogether (now : SimpleDate) : WriteOp → Prop
  | .profileSet _ d => d.streakDays.isSome ∧ d.lastCheckIn = some now
  | .profileUpdate _ sd lc => sd.isSome ∧ lc = some now
  | .relapseAdd _ => True

theorem updateStreak_log_cases (st : Store) (u : String) (now : SimpleDate) :
    (updateStreak st u now).2.log = st.log ∨
    ∃ s, (updateStreak st u now).2.log =
      st.log ++ [WriteOp.profileUpdate u (some s) (some now)] := by
  rw [updateStreak]
  cases hu : st.users u with
  | none => exact Or.inl rfl
  | some d =>
    cases hT : isTodayJS (d.lastCheckIn.getD epochDate) now with
    | true => simp [hT]
    | false =>
      cases hw : st.writeFails with
      | some cause => simp [hT, hw]
      | none =>
        right
        refine ⟨if isYesterdayJS (d.lastCheckIn.getD epochDate) now then
          d.streakDays.getD 0 + 1 else 1, ?_⟩
        simp [hT, hw]

theorem logRelapse_log_cases (st : Store) (u : String) (now : SimpleDate)
    (notes : Option String) :
    (logRelapse st u now notes).2.log = st.log ∨
    (logRelapse st u now notes).2.log =
      st.log ++ [WriteOp.relapseAdd ⟨u, now, notes.getD ""⟩] ∨
    (logRelapse st u now notes).2.log =
      st.log ++ [WriteOp.relapseAdd ⟨u, now, notes.getD ""⟩,
                 WriteOp.profileUpdate u (some 0) (some now)] := by
  rw [logRelapse]
  cases hw : st.writeFails with
  | some cause => exact Or.inl rfl
  | none =>
    cases hu : st.users u with
    | none => simp [hu]
    | some d => simp [hu]

/-- Claim C8: every profile write issued by a check-in (`updateStreak`)
or a relapse (`logRelapse`) writes `streakDays` and `lastCheckIn`
together in the same single update call, with `lastCheckIn = now`; the
two fields are never written independently by either operation. -/
theorem streak_and_checkin_written_together (st : Store) (u : String)
    (now : SimpleDate) (notes : Option String) (op : WriteOp)
    (h : op ∈ (updateStreak st u now).2.log ∨
         op ∈ (logRelapse st u now notes).2.log) :
    op ∈ st.log ∨ writesStreakAndCheckInTogether now op := by
  rcases h with h | h
  · rcases updateStreak_log_cases st u now with hl | ⟨s, hl⟩
    · rw [hl] at h
      exact Or.inl h
    · rw [hl, List.mem_append, List.mem_singleton] at h
      rcases h with h | h
      · exact Or.inl h
      · subst h
        exact Or.inr ⟨rfl, rfl⟩
  · rcases logRelapse_log_cases st u now notes with hl | hl | hl
    · rw [hl] at h
      exact Or.inl h
    · rw [hl, List.mem_append, List.mem_singleton] at h
      rcases h with h | h
      · exact Or.inl h
      · subst h
        exact Or.inr trivial
    · rw [hl, List.mem_append] at h
      rcases h with h | h
      · exact Or.inl h
      · rw [List.mem_cons, List.mem_singleton] at h
        rcases h with h | h
        · subst h
          exact Or.inr trivial
        · subst h
          exact Or.inr ⟨rfl, rfl⟩

/-- Witness for C8: the write emitted by the demo check-in carries both
fields. -/
theorem streak_and_checkin_written_together_witness :
    WriteOp.profileUpdate "u1" (some 6) (some ⟨2024, 2, 11⟩) ∈
        demoStore.log ∨
    writesStreakAndCheckInTogether ⟨2024, 2, 11⟩
      (WriteOp.profileUpdate "u1" (some 6) (some ⟨2024, 2, 11⟩)) :=
  streak_and_checkin_written_together demoStore "u1" ⟨2024, 2, 11⟩ none
    (WriteOp.profileUpdate "u1" (some 6) (some ⟨2024, 2, 11⟩))
    (Or.inl (by decide))

/-- The empty store: no user documents, nothing written, no failure. -/
def emptyStore : Store :=
  { users := fun _ => none, relapses := [], log := [], writeFails := none }

/-- A store whose `users` collection holds, for id "u1", a document with
every optional field absent. -/
def bareDocStore : Store :=
  { users := fun i => if i = "u1" then some {} else none,
    relapses := [], log := [], writeFails := none }

/-- Claim C9 counterexample: reading an id with no document returns the
very same `UserProfile` value as reading an id whose stored document is
empty — a bare `{ id }` object, not a NotFound indication.  The declared
`UserProfile | null` return type's `null` is never produced. -/
theorem read_missing_profile_not_distinguished :
    getUserProfile emptyStore "u1" = getUserProfile bareDocStore "u1" ∧
    emptyStore.users "u1" = none ∧
    bareDocStore.users "u1" = some {} := by
  decide

/-- Claim C9 (amended): `getUserProfile` returns the stored profile
(document fields spread next to the id) when the document exists, and a
stub `UserProfile` carrying only the id — not a distinct NotFound value —
when no document exists. -/
theorem read_returns_profile_or_stub (st : Store) (uid : String) :
    (∀ d, st.users uid = some d →
        getUserProfile st uid = profileOfDoc uid d) ∧
    (st.users uid = none → getUserProfile st uid = { id := uid }) := by
  constructor
  · intro d hd
    simp [getUserProfile, hd]
  · intro hd
    simp [getUserProfile, hd]

/-- Witness for the amended C9 on the demo and empty stores. -/
theorem read_returns_profile_or_stub_witness :
    getUserProfile demoStore "u1" = profileOfDoc "u1" demoDoc ∧
    getUserProfile emptyStore "u1" = { id := "u1" } :=
  ⟨(read_returns_profile_or_stub demoStore "u1").1 demoDoc (by decide),
   (read_returns_profile_or_stub emptyStore "u1").2 rfl⟩

/-- Claim C10: registration writes a profile document with
`streakDays = 0` and `lastCheckIn` equal to the registration time, so a
check-in later on the same calendar day returns success with streak 0
and "Already checked in today" without writing, while a check-in on the
following calendar day performs the first increment, `streakDays = 1`. -/
theorem register_then_first_checkin (st : Store) (uid email uname : String)
    (loc : Option GeoPoint) (regTime now1 now2 : SimpleDate)
    (hw : st.writeFails = none)
    (h1y : regTime.year = now1.year) (h1m : regTime.month = now1.month)
    (h1d : regTime.day = now1.day)
    (h2 : civilFromDate now2 - civilFromDate regTime = 1) :
    (register st uid email uname loc regTime).users uid =
      some (registrationDoc uname email loc regTime) ∧
    updateStreak (register st uid email uname loc regTime) uid now1 =
      ({ success := true, streakDays := some 0,
         message := "Already checked in today" },
       register st uid email uname loc regTime) ∧
    (updateStreak (register st uid email uname loc regTime) uid now2).1 =
      { success := true, streakDays := some 1,
        message := "Streak updated successfully" } := by
  have hreg : (register st uid email uname loc regTime).users uid =
      some (registrationDoc uname email loc regTime) := by
    simp [register, hw]
  have hw' : (register st uid email uname loc regTime).writeFails = none := by
    simp [register, hw]
  have hlc : (registrationDoc uname email loc regTime).lastCheckIn.getD epochDate
      = regTime := rfl
  refine ⟨hreg, ?_, ?_⟩
  · have hT1 : isTodayJS
        ((registrationDoc uname email loc regTime).lastCheckIn.getD epochDate)
        now1 = true := by
      rw [hlc]
      exact (isTodayJS_true_iff regTime now1).mpr ⟨h1d, h1m, h1y⟩
    exact updateStreak_today _ uid (registrationDoc uname email loc regTime)
      now1 hreg hT1
  · have hT2 : isTodayJS
        ((registrationDoc uname email loc regTime).lastCheckIn.getD epochDate)
        now2 = false := by
      rw [hlc]
      exact isTodayJS_false_of_civil_ne regTime now2 (by omega)
    rw [updateStreak_write _ uid (registrationDoc uname email loc regTime)
      now2 hreg hT2 hw']
    cases hb : isYesterdayJS
        ((registrationDoc uname email loc regTime).lastCheckIn.getD epochDate)
        now2 with
    | true => simp [hb, registrationDoc]
    | false => simp [hb]

/-- Witness for C10: registration on 2024-03-10, a same-day check-in, and
a next-day check-in on the empty store. -/
theorem register_then_first_checkin_witness :
    (register emptyStore "new1" "nina@example.com" "nina" none
        ⟨2024, 2, 10⟩).users "new1" =
      some (registrationDoc "nina" "nina@example.com" none ⟨2024, 2, 10⟩) ∧
    updateStreak (register emptyStore "new1" "nina@example.com" "nina" none
        ⟨2024, 2, 10⟩) "new1" ⟨2024, 2, 10⟩ =
      ({ success := true, streakDays := some 0,
         message := "Already checked in today" },
       register emptyStore "new1" "nina@example.com" "nina" none
         ⟨2024, 2, 10⟩) ∧
    (updateStreak (register emptyStore "new1" "nina@example.com" "nina" none
        ⟨2024, 2, 10⟩) "new1" ⟨2024, 2, 11⟩).1 =
      { success := true, streakDays := some 1,
        message := "Streak updated successfully" } :=
  register_then_first_checkin emptyStore "new1" "nina@example.com" "nina"
    none ⟨2024, 2, 10⟩ ⟨2024, 2, 10⟩ ⟨2024, 2, 11⟩ rfl rfl rfl rfl (by decide)
